import Mathlib

/-!
Verification development for the silent_library Django application
(`library` app).  The overdue-loan/fine/notification pipeline described by
the specification is exercised by `library/tests.py`
(`AdminDashboardViewTests`, `BulkEmailOverdueBorrowersTests`) but its view
code is not present in `library/views.py` of this snapshot; those parts are
modelled from the specification, as marked on each definition.  The
register view, the password validator and the `Book` model constraints are
embedded directly from `library/views.py`, `library/forms.py` and
`library/models.py`.

Dates are modelled as integer day numbers, so that "(current date − due
date) in whole days" is integer subtraction.  Currency amounts are rational
numbers.
-/

namespace SilentLibrary

/-- `LoanStatus` from `library/models.py`: the possible statuses of a loan. -/
inductive LoanStatus where
  | borrowed
  | returned
  | overdue
deriving DecidableEq, Repr

/-- A loan record, after `Loan` in `library/models.py`: borrower reference,
book reference (by title), borrow date, due date, nullable return date and
a status.  Dates are integer day numbers. -/
structure Loan where
  user : Nat
  book : String
  borrow_date : Int
  due_date : Int
  return_date : Option Int
  status : LoanStatus
deriving DecidableEq, Repr

/-- Modelled from the spec: the fixed daily fine rate of the overdue-fine
calculator (spec 4.1, "fine = days_overdue × 1.00 (currency unit)"); the
calculator itself is missing from `library/views.py`. -/
def daily_rate : ℚ := 1

/-- Modelled from the spec: the overdue-fine calculator of spec 4.1, which
is missing from `library/views.py` (only `library/tests.py` exercises it).
Given a loan due date and the current date: if due date < current date it
produces `some (days_overdue, fine)` with `days_overdue = current − due` in
whole days and `fine = days_overdue × daily_rate`; if due date ≥ current
date the loan is not included in overdue results (`none`). -/
def overdue_fine_calc (due today : Int) : Option (Int × ℚ) :=
  if due < today then some (today - due, ((today - due : Int) : ℚ) * daily_rate)
  else none

/-- Modelled from the spec: the selection predicate of the overdue
aggregation (spec 4.2, missing from `library/views.py`): status =
"overdue" OR (status = "borrowed" AND due date < current date). -/
def overdue_selected (today : Int) (l : Loan) : Bool :=
  l.status = LoanStatus.overdue ∨ (l.status = LoanStatus.borrowed ∧ l.due_date < today)

/-- The due-date ordering used by the aggregation (`order_by('due_date')`
in the exercised queryset): earlier due dates first. -/
def dueLE (a b : Loan) : Prop := a.due_date ≤ b.due_date

instance : DecidableRel dueLE := fun a b => Int.decLe a.due_date b.due_date

instance : IsTotal Loan dueLE := ⟨fun a b => le_total a.due_date b.due_date⟩

instance : IsTrans Loan dueLE := ⟨fun _ _ _ h1 h2 => le_trans h1 h2⟩

/-- Modelled from the spec: the overdue aggregation of spec 4.2, missing
from `library/views.py`.  It selects the loans satisfying
`overdue_selected`, orders them by due date ascending, and applies the
overdue-fine calculator (spec 4.1) to each selected loan, producing a
`(loan, days_overdue, fine)` triple for each loan the calculator includes. -/
def overdue_aggregation (loans : List Loan) (today : Int) : List (Loan × Int × ℚ) :=
  (List.insertionSort dueLE (loans.filter (overdue_selected today))).filterMap
    (fun l => (overdue_fine_calc l.due_date today).map (fun p => (l, p)))

/-- Membership in the aggregation output, unfolded to the source lists. -/
theorem mem_overdue_aggregation {loans : List Loan} {today : Int}
    {l : Loan} {d : Int} {f : ℚ} :
    (l, d, f) ∈ overdue_aggregation loans today ↔
      l ∈ loans ∧ overdue_selected today l = true ∧
        overdue_fine_calc l.due_date today = some (d, f) := by
  unfold overdue_aggregation
  rw [List.mem_filterMap]
  constructor
  · rintro ⟨a, ha, hmap⟩
    rw [Option.map_eq_some'] at hmap
    obtain ⟨p, hp, hpa⟩ := hmap
    obtain ⟨rfl, rfl⟩ : a = l ∧ p = (d, f) := by
      constructor
      · exact congrArg Prod.fst hpa
      · exact congrArg Prod.snd hpa
    rw [List.mem_insertionSort, List.mem_filter] at ha
    exact ⟨ha.1, ha.2, hp⟩
  · rintro ⟨hl, hsel, hcalc⟩
    refine ⟨l, ?_, ?_⟩
    · rw [List.mem_insertionSort, List.mem_filter]
      exact ⟨hl, hsel⟩
    · rw [hcalc]
      rfl

/-- The aggregation output is ordered by due date ascending. -/
theorem overdue_aggregation_sorted (loans : List Loan) (today : Int) :
    (overdue_aggregation loans today).Pairwise
      (fun a b => a.1.due_date ≤ b.1.due_date) := by
  unfold overdue_aggregation
  rw [List.pairwise_filterMap]
  have hsorted :
      (List.insertionSort dueLE (loans.filter (overdue_selected today))).Pairwise
        dueLE :=
    List.sorted_insertionSort dueLE (loans.filter (overdue_selected today))
  refine hsorted.imp ?_
  intro a b hab x hx y hy
  have hxa : x.1 = a := by
    rcases hmap : overdue_fine_calc a.due_date today with _ | p
    · rw [hmap] at hx; simp at hx
    · rw [hmap] at hx
      simp only [Option.map_some', Option.mem_def, Option.some.injEq] at hx
      rw [← hx]
  have hyb : y.1 = b := by
    rcases hmap : overdue_fine_calc b.due_date today with _ | p
    · rw [hmap] at hy; simp at hy
    · rw [hmap] at hy
      simp only [Option.map_some', Option.mem_def, Option.some.injEq] at hy
      rw [← hy]
  rw [hxa, hyb]
  exact hab

/-- Modelled from the spec: one batched overdue notification (spec 4.3);
the batcher view (`bulk_email_overdue_borrowers`, exercised by
`library/tests.py`) is missing from `library/views.py`.  A notice carries
the borrower, one line per overdue book (title, due date, days overdue,
fine) and the total fine across the listed books. -/
structure OverdueNotice where
  user : Nat
  book_lines : List (String × Int × Int × ℚ)
  total_fine : ℚ
deriving DecidableEq, Repr

/-- Modelled from the spec: the aggregation output re-filtered for
due date < current date — the batcher's defensive re-check (spec 4.3). -/
def qualifying_items (loans : List Loan) (today : Int) : List (Loan × Int × ℚ) :=
  (overdue_aggregation loans today).filter (fun t => t.1.due_date < today)

/-- Modelled from the spec: the borrowers having at least one qualifying
loan, each listed once (spec 4.3 groups the aggregation output by
borrower). -/
def overdue_borrowers (loans : List Loan) (today : Int) : List Nat :=
  ((qualifying_items loans today).map (fun t => t.1.user)).dedup

/-- Modelled from the spec: the message built for one borrower (spec 4.3):
a line per overdue book with title, due date, days overdue and fine, and
the total fine across all listed books. -/
def notice_for (items : List (Loan × Int × ℚ)) (u : Nat) : OverdueNotice :=
  let mine := items.filter (fun t => t.1.user == u)
  { user := u
    book_lines := mine.map (fun t => (t.1.book, t.1.due_date, t.2.1, t.2.2))
    total_fine := (mine.map (fun t => t.2.2)).sum }

/-- Modelled from the spec: the notification batcher (spec 4.3): one
message per borrower with at least one qualifying loan. -/
def notification_batch (loans : List Loan) (today : Int) : List OverdueNotice :=
  (overdue_borrowers loans today).map (notice_for (qualifying_items loans today))

/-- Modelled from the spec: the bulk notification loop (spec 4.3): invokes
the mail-dispatch collaborator (which either succeeds or raises a
reportable error) once per batched message; a failure is caught and
counted and the loop continues; the success and failure counts are
returned to the caller. -/
def run_notification_batch (loans : List Loan) (today : Int)
    (dispatch : OverdueNotice → Except String Unit) : Nat × Nat :=
  (notification_batch loans today).foldl
    (fun acc n =>
      match dispatch n with
      | Except.ok _ => (acc.1 + 1, acc.2)
      | Except.error _ => (acc.1, acc.2 + 1))
    (0, 0)

/-- The dispatch loop, started from any accumulator, adds the number of
successful and failed dispatches to the respective component. -/
theorem dispatch_foldl_counts (dispatch : OverdueNotice → Except String Unit)
    (msgs : List OverdueNotice) (s f : Nat) :
    msgs.foldl
        (fun acc n =>
          match dispatch n with
          | Except.ok _ => (acc.1 + 1, acc.2)
          | Except.error _ => (acc.1, acc.2 + 1))
        (s, f) =
      (s + msgs.countP (fun n => (dispatch n).isOk),
        f + msgs.countP (fun n => !(dispatch n).isOk)) := by
  induction msgs generalizing s f with
  | nil => simp
  | cons m ms ih =>
    rcases hd : dispatch m with e | v <;>
      simp only [List.foldl_cons, hd, List.countP_cons, Except.isOk,
        Except.toBool, ih] <;>
      simp [Prod.ext_iff] <;> omega

/-- C1: for every loan whose due date is strictly before the current date,
the overdue-fine calculation produces `days_overdue = current − due` in
whole days and `fine = days_overdue × 1.00`; in particular a loan due `N`
days ago (`N > 0`) with status `borrowed` or `overdue` appears in the
aggregation with `days_overdue = N` and `fine = N × 1.00`. -/
theorem overdue_fine_calc_days_and_fine :
    (∀ due today : Int, due < today →
      overdue_fine_calc due today =
        some (today - due, ((today - due : Int) : ℚ) * daily_rate))
    ∧ ∀ (loans : List Loan) (today N : Int) (l : Loan), 0 < N → l ∈ loans →
        (l.status = LoanStatus.borrowed ∨ l.status = LoanStatus.overdue) →
        l.due_date = today - N →
        (l, N, (N : ℚ) * daily_rate) ∈ overdue_aggregation loans today := by
  constructor
  · intro due today h
    unfold overdue_fine_calc
    rw [if_pos h]
  · intro loans today N l hN hl hstatus hdue
    rw [mem_overdue_aggregation]
    have hlt : l.due_date < today := by omega
    refine ⟨hl, ?_, ?_⟩
    · unfold overdue_selected
      rcases hstatus with h | h
      · simp [h, hlt]
      · simp [h]
    · unfold overdue_fine_calc
      rw [if_pos hlt, hdue]
      norm_num

/-- Witness for C1 at concrete inputs: due day 2, current day 5, and a
borrowed loan due 3 days ago. -/
theorem overdue_fine_calc_days_and_fine_witness :
    overdue_fine_calc 2 5 = some (5 - 2, (((5 - 2 : Int)) : ℚ) * daily_rate)
    ∧ (⟨7, "b", 0, 2, none, LoanStatus.borrowed⟩, (3 : Int), ((3 : Int) : ℚ) * daily_rate) ∈
        overdue_aggregation [⟨7, "b", 0, 2, none, LoanStatus.borrowed⟩] 5 :=
  ⟨overdue_fine_calc_days_and_fine.1 2 5 (by decide),
   overdue_fine_calc_days_and_fine.2 [⟨7, "b", 0, 2, none, LoanStatus.borrowed⟩]
     5 3 ⟨7, "b", 0, 2, none, LoanStatus.borrowed⟩ (by decide)
     (List.mem_singleton.mpr rfl) (Or.inl rfl) (by decide)⟩

/-- C2: the overdue aggregation selects exactly the loans satisfying
status = overdue OR (status = borrowed AND due date < current date),
applies the fine calculation (spec 4.1) to each selected loan — a triple
is produced exactly when the calculator includes the loan — and the
resulting `(loan, days_overdue, fine)` sequence is ordered by due date
ascending. -/
theorem overdue_aggregation_spec (loans : List Loan) (today : Int) :
    (∀ (l : Loan) (d : Int) (f : ℚ),
      (l, d, f) ∈ overdue_aggregation loans today ↔
        l ∈ loans ∧
          (l.status = LoanStatus.overdue ∨
            (l.status = LoanStatus.borrowed ∧ l.due_date < today)) ∧
          overdue_fine_calc l.due_date today = some (d, f))
    ∧ (overdue_aggregation loans today).Pairwise
        (fun a b => a.1.due_date ≤ b.1.due_date) := by
  constructor
  · intro l d f
    rw [mem_overdue_aggregation]
    unfold overdue_selected
    simp only [decide_eq_true_eq]
  · exact overdue_aggregation_sorted loans today

/-- C3: a loan whose due date is ≥ the current date never appears in the
overdue aggregation output, whatever its stored status (including a
status of `overdue`). -/
theorem overdue_aggregation_excludes_future (loans : List Loan) (today : Int)
    (l : Loan) (h : today ≤ l.due_date) (d : Int) (f : ℚ) :
    (l, d, f) ∉ overdue_aggregation loans today := by
  intro hmem
  rw [mem_overdue_aggregation] at hmem
  obtain ⟨-, -, hcalc⟩ := hmem
  unfold overdue_fine_calc at hcalc
  rw [if_neg (by omega)] at hcalc
  exact Option.noConfusion hcalc

/-- Witness for C3: a loan marked `overdue` but due exactly on the current
day is excluded from the aggregation. -/
theorem overdue_aggregation_excludes_future_witness :
    (⟨7, "b", 0, 5, none, LoanStatus.overdue⟩, (0 : Int), (0 : ℚ)) ∉
      overdue_aggregation [⟨7, "b", 0, 5, none, LoanStatus.overdue⟩] 5 :=
  overdue_aggregation_excludes_future
    [⟨7, "b", 0, 5, none, LoanStatus.overdue⟩] 5
    ⟨7, "b", 0, 5, none, LoanStatus.overdue⟩ (by decide) 0 0

/-- C4: every borrower with at least one qualifying loan (due date <
current date) receives exactly one notification; it lists each of that
borrower's overdue books (title, due date, days overdue, fine) and its
total fine is the sum of the listed per-loan fines. -/
theorem notification_batch_spec (loans : List Loan) (today : Int) (u : Nat)
    (h : ∃ t ∈ qualifying_items loans today, t.1.user = u) :
    ((notification_batch loans today).countP (fun n => n.user == u) = 1)
    ∧ ∃ n ∈ notification_batch loans today, n.user = u
        ∧ (∀ t ∈ qualifying_items loans today, t.1.user = u →
            (t.1.book, t.1.due_date, t.2.1, t.2.2) ∈ n.book_lines)
        ∧ n.total_fine = (n.book_lines.map (fun line => line.2.2.2)).sum := by
  obtain ⟨t0, ht0, hu0⟩ := h
  have humem : u ∈ (qualifying_items loans today).map (fun t => t.1.user) :=
    List.mem_map.mpr ⟨t0, ht0, hu0⟩
  constructor
  · unfold notification_batch
    rw [List.countP_map]
    have hcomp :
        ((fun n : OverdueNotice => n.user == u) ∘
            notice_for (qualifying_items loans today)) =
          fun v => v == u := rfl
    rw [hcomp]
    have hcount :
        List.count u
            (((qualifying_items loans today).map (fun t => t.1.user)).dedup) = 1 := by
      rw [List.count_dedup]
      simp [humem]
    unfold overdue_borrowers
    exact hcount
  · refine ⟨notice_for (qualifying_items loans today) u, ?_, rfl, ?_, ?_⟩
    · unfold notification_batch overdue_borrowers
      exact List.mem_map_of_mem _ (List.mem_dedup.mpr humem)
    · intro t ht htu
      unfold notice_for
      simp only
      refine List.mem_map.mpr ⟨t, ?_, rfl⟩
      rw [List.mem_filter]
      exact ⟨ht, by simpa using htu⟩
    · unfold notice_for
      simp only [List.map_map]
      rfl

/-- Witness for C4: borrower 7 holds two overdue loans with fines 5.00 and
3.00 on day 15; the batch emits exactly one notice for borrower 7 and its
total fine is 8.00. -/
theorem notification_batch_spec_witness :
    (((notification_batch
          [⟨7, "1984", 0, 10, none, LoanStatus.overdue⟩,
            ⟨7, "Brave New World", 0, 12, none, LoanStatus.borrowed⟩] 15).countP
          (fun n => n.user == 7) = 1)
      ∧ ∃ n ∈ notification_batch
            [⟨7, "1984", 0, 10, none, LoanStatus.overdue⟩,
              ⟨7, "Brave New World", 0, 12, none, LoanStatus.borrowed⟩] 15,
          n.user = 7
          ∧ (∀ t ∈ qualifying_items
                [⟨7, "1984", 0, 10, none, LoanStatus.overdue⟩,
                  ⟨7, "Brave New World", 0, 12, none, LoanStatus.borrowed⟩] 15,
              t.1.user = 7 →
              (t.1.book, t.1.due_date, t.2.1, t.2.2) ∈ n.book_lines)
          ∧ n.total_fine = (n.book_lines.map (fun line => line.2.2.2)).sum)
    ∧ (notification_batch
          [⟨7, "1984", 0, 10, none, LoanStatus.overdue⟩,
            ⟨7, "Brave New World", 0, 12, none, LoanStatus.borrowed⟩] 15).map
        (fun n => (n.user, n.total_fine)) = [(7, 8)] :=
  ⟨notification_batch_spec
      [⟨7, "1984", 0, 10, none, LoanStatus.overdue⟩,
        ⟨7, "Brave New World", 0, 12, none, LoanStatus.borrowed⟩] 15 7 (by decide),
    by
      norm_num [notification_batch, overdue_borrowers, qualifying_items,
        overdue_aggregation, overdue_selected, dueLE, notice_for,
        overdue_fine_calc, daily_rate, List.insertionSort, List.orderedInsert,
        List.filterMap_cons, List.filter_cons, List.dedup_cons_of_mem,
        List.dedup_cons_of_not_mem]⟩

/-- C5: the bulk notification loop returns, for any dispatch behaviour, the
pair (number of successful dispatches, number of failed dispatches); every
batched message is processed (the two counts always add up to the number
of borrowers notified) and no exception propagates — the loop is a total
function into the count pair reported to the invoking staff user.  With
two borrowers and one dispatch failure it returns (1, 1). -/
theorem run_notification_batch_counts (loans : List Loan) (today : Int)
    (dispatch : OverdueNotice → Except String Unit) :
    run_notification_batch loans today dispatch =
      ((notification_batch loans today).countP (fun n => (dispatch n).isOk),
        (notification_batch loans today).countP (fun n => !(dispatch n).isOk))
    ∧ (run_notification_batch loans today dispatch).1 +
        (run_notification_batch loans today dispatch).2 =
        (notification_batch loans today).length
    ∧ run_notification_batch
        [⟨7, "The Great Gatsby", 0, 5, none, LoanStatus.borrowed⟩,
          ⟨8, "1984", 0, 10, none, LoanStatus.overdue⟩] 15
        (fun n => if n.user == 8 then Except.error "smtp failure" else Except.ok ()) =
        (1, 1) := by
  have hmain := dispatch_foldl_counts dispatch (notification_batch loans today) 0 0
  have hfirst :
      run_notification_batch loans today dispatch =
        ((notification_batch loans today).countP (fun n => (dispatch n).isOk),
          (notification_batch loans today).countP (fun n => !(dispatch n).isOk)) := by
    unfold run_notification_batch
    rw [hmain]
    simp
  refine ⟨hfirst, ?_, by decide⟩
  rw [hfirst]
  simp only
  rw [List.length_eq_countP_add_countP (fun n => (dispatch n).isOk)]
  congr 1
  apply List.countP_congr
  intro a _
  simp

/-- C6: the overdue-fine calculator is a total, deterministic function of
its two date arguments: every input yields exactly one result, and when
due date < current date the result is a defined (days, fine) pair with a
nonnegative day count.  Purity (no side effects) holds by construction:
the model is a plain function. -/
theorem overdue_fine_calc_total (due today : Int) :
    (∃! r : Option (Int × ℚ), overdue_fine_calc due today = r)
    ∧ (due < today →
        ∃ d f, overdue_fine_calc due today = some (d, f) ∧ 0 ≤ d) := by
  constructor
  · exact ⟨overdue_fine_calc due today, rfl, fun y hy => hy.symm⟩
  · intro h
    refine ⟨today - due, ((today - due : Int) : ℚ) * daily_rate, ?_, by omega⟩
    unfold overdue_fine_calc
    rw [if_pos h]

/-- Witness for C6 at due day 2, current day 5. -/
theorem overdue_fine_calc_total_witness :
    (∃! r : Option (Int × ℚ), overdue_fine_calc 2 5 = r)
    ∧ ∃ d f, overdue_fine_calc 2 5 = some (d, f) ∧ 0 ≤ d :=
  ⟨(overdue_fine_calc_total 2 5).1, (overdue_fine_calc_total 2 5).2 (by decide)⟩

/-- The persisted store read by the dashboard and notification logic,
after the models of `library/models.py`: loans, fines (loan reference and
amount), books (title, total and available copies), users and stored
notifications (user and text). -/
structure LibraryState where
  loans : List Loan
  fines : List (Nat × ℚ)
  books : List (String × Nat × Nat)
  users : List Nat
  notifications : List (Nat × String)
deriving DecidableEq

/-- Modelled from the spec: the admin-dashboard overdue display as a state
transformer; the view is missing from `library/views.py`.  Per spec §3 the
logic only reads loan records and composes transient view data, so the
step returns the store together with the transient aggregation output. -/
def admin_dashboard_overdue (st : LibraryState) (today : Int) :
    LibraryState × List (Loan × Int × ℚ) :=
  (st, overdue_aggregation st.loans today)

/-- Modelled from the spec: the bulk notification run as a state
transformer; the view is missing from `library/views.py`.  It reads loan
records, dispatches the batched messages and returns the store with the
success/failure counts. -/
def bulk_email_run (st : LibraryState) (today : Int)
    (dispatch : OverdueNotice → Except String Unit) :
    LibraryState × Nat × Nat :=
  (st, run_notification_batch st.loans today dispatch)

/-- C7: the overdue/fine/notification logic neither creates, mutates nor
destroys any persisted entity — after the dashboard aggregation and the
notification run every stored loan, fine, book, user and notification
record is unchanged — and its transient outputs depend only on the loan
records read. -/
theorem pipeline_frame (st other : LibraryState) (today : Int)
    (dispatch : OverdueNotice → Except String Unit) :
    ((admin_dashboard_overdue st today).1.loans = st.loans
      ∧ (admin_dashboard_overdue st today).1.fines = st.fines
      ∧ (admin_dashboard_overdue st today).1.books = st.books
      ∧ (admin_dashboard_overdue st today).1.users = st.users
      ∧ (admin_dashboard_overdue st today).1.notifications = st.notifications)
    ∧ ((bulk_email_run st today dispatch).1.loans = st.loans
      ∧ (bulk_email_run st today dispatch).1.fines = st.fines
      ∧ (bulk_email_run st today dispatch).1.books = st.books
      ∧ (bulk_email_run st today dispatch).1.users = st.users
      ∧ (bulk_email_run st today dispatch).1.notifications = st.notifications)
    ∧ (st.loans = other.loans →
        (admin_dashboard_overdue st today).2 =
            (admin_dashboard_overdue other today).2
        ∧ (bulk_email_run st today dispatch).2 =
            (bulk_email_run other today dispatch).2) := by
  refine ⟨⟨rfl, rfl, rfl, rfl, rfl⟩, ⟨rfl, rfl, rfl, rfl, rfl⟩, ?_⟩
  intro hloans
  unfold admin_dashboard_overdue bulk_email_run
  rw [hloans]
  exact ⟨rfl, rfl⟩

/-- Witness for C7 at a concrete store holding one loan, one fine row, one
book row, one user and one stored notification. -/
theorem pipeline_frame_witness :
    ((admin_dashboard_overdue
        ⟨[⟨7, "b", 0, 2, none, LoanStatus.borrowed⟩], [(1, 5)], [("b", 2, 1)],
          [7], [(7, "hello")]⟩ 5).1.loans =
      [⟨7, "b", 0, 2, none, LoanStatus.borrowed⟩])
    ∧ (admin_dashboard_overdue
        ⟨[⟨7, "b", 0, 2, none, LoanStatus.borrowed⟩], [(1, 5)], [("b", 2, 1)],
          [7], [(7, "hello")]⟩ 5).2 =
      (admin_dashboard_overdue
        ⟨[⟨7, "b", 0, 2, none, LoanStatus.borrowed⟩], [], [], [], []⟩ 5).2 :=
  ⟨(pipeline_frame
      ⟨[⟨7, "b", 0, 2, none, LoanStatus.borrowed⟩], [(1, 5)], [("b", 2, 1)],
        [7], [(7, "hello")]⟩
      ⟨[⟨7, "b", 0, 2, none, LoanStatus.borrowed⟩], [], [], [], []⟩ 5
      (fun _ => Except.ok ())).1.1,
    ((pipeline_frame
      ⟨[⟨7, "b", 0, 2, none, LoanStatus.borrowed⟩], [(1, 5)], [("b", 2, 1)],
        [7], [(7, "hello")]⟩
      ⟨[⟨7, "b", 0, 2, none, LoanStatus.borrowed⟩], [], [], [], []⟩ 5
      (fun _ => Except.ok ())).2.2 rfl).1⟩

/-- A message recorded through the framework messaging facility by the
register view (`messages.error` / `messages.success` in
`library/views.py`). -/
inductive RegMessage where
  | errorText (text : String)
  | successText (text : String)
deriving DecidableEq, Repr

/-- The response of the register view: a redirect to the
registration-complete page or a render of the registration template. -/
inductive RegResponse where
  | redirectComplete
  | renderRegisterTemplate
deriving DecidableEq, Repr

/-- The new user saved by `UserRegistrationForm.save` in the register
view; only the fields the view reads afterwards are kept. -/
structure RegUser where
  username : String
  email : String
  first_name : String
deriving DecidableEq, Repr

/-- What a run of the register view produces: the user saved to the
database (if any), the messages recorded, and the response. -/
structure RegOutcome where
  saved : Option RegUser
  recorded : List RegMessage
  response : RegResponse
deriving DecidableEq, Repr

/-- Embeds `register` from `library/views.py` (lines 84–119).  Inputs: the
request method (`is_post`), the outcome of `form.is_valid()` together
with the bound user (`form_result`), and the behaviour of the `send_mail`
collaborator (`send_result`), which either succeeds or raises.  On a valid
POST the user is saved, the send failure (if any) is caught and recorded
as an error message, a success message is recorded unconditionally, and
the view redirects to `registration_complete`; otherwise the registration
template is rendered. -/
def register (is_post : Bool) (form_result : Option RegUser)
    (send_result : Except String Unit) : RegOutcome :=
  if is_post then
    match form_result with
    | some user =>
        let email_msgs :=
          match send_result with
          | Except.ok _ => []
          | Except.error e =>
              [RegMessage.errorText
                ("Error sending confirmation email to ['" ++ user.email ++ "']: " ++ e)]
        { saved := some user
          recorded := email_msgs ++
            [RegMessage.successText
              "Registration successful. Please check your email for confirmation."]
          response := RegResponse.redirectComplete }
    | none =>
        { saved := none
          recorded := []
          response := RegResponse.renderRegisterTemplate }
  else
    { saved := none
      recorded := []
      response := RegResponse.renderRegisterTemplate }

/-- C8: on a valid registration submission the new user is saved and the
request redirects to the registration-complete page whether or not the
email send raises; a success message is recorded in both cases and an
error message is recorded on failure. -/
theorem register_email_failure_tolerated (user : RegUser)
    (send_result : Except String Unit) :
    (register true (some user) send_result).saved = some user
    ∧ (register true (some user) send_result).response =
        RegResponse.redirectComplete
    ∧ RegMessage.successText
          "Registration successful. Please check your email for confirmation."
        ∈ (register true (some user) send_result).recorded
    ∧ ∀ e, send_result = Except.error e →
        RegMessage.errorText
            ("Error sending confirmation email to ['" ++ user.email ++ "']: " ++ e)
          ∈ (register true (some user) send_result).recorded := by
  rcases send_result with e | v <;>
    simp [register]

/-- Witness for C8: a concrete user whose confirmation email send raises
is still saved and redirected, with both messages recorded. -/
theorem register_email_failure_tolerated_witness :
    (register true (some ⟨"jo", "jo@example.com", "Jo"⟩)
        (Except.error "smtp down")).saved = some ⟨"jo", "jo@example.com", "Jo"⟩
    ∧ (register true (some ⟨"jo", "jo@example.com", "Jo"⟩)
        (Except.error "smtp down")).response = RegResponse.redirectComplete
    ∧ RegMessage.successText
          "Registration successful. Please check your email for confirmation."
        ∈ (register true (some ⟨"jo", "jo@example.com", "Jo"⟩)
            (Except.error "smtp down")).recorded
    ∧ RegMessage.errorText
          ("Error sending confirmation email to ['" ++ "jo@example.com" ++ "']: "
            ++ "smtp down")
        ∈ (register true (some ⟨"jo", "jo@example.com", "Jo"⟩)
            (Except.error "smtp down")).recorded :=
  ⟨(register_email_failure_tolerated ⟨"jo", "jo@example.com", "Jo"⟩
      (Except.error "smtp down")).1,
    (register_email_failure_tolerated ⟨"jo", "jo@example.com", "Jo"⟩
      (Except.error "smtp down")).2.1,
    (register_email_failure_tolerated ⟨"jo", "jo@example.com", "Jo"⟩
      (Except.error "smtp down")).2.2.1,
    (register_email_failure_tolerated ⟨"jo", "jo@example.com", "Jo"⟩
      (Except.error "smtp down")).2.2.2 "smtp down" rfl⟩

/-- The regex class `[A-Z]` of `CharacterVarietyValidator`. -/
def uppercase_letter (c : Char) : Bool := 'A' ≤ c && c ≤ 'Z'

/-- The regex class `[a-z]` of `CharacterVarietyValidator`. -/
def lowercase_letter (c : Char) : Bool := 'a' ≤ c && c ≤ 'z'

/-- The regex class `\d` of `CharacterVarietyValidator`, over the ASCII
range. -/
def digit_char (c : Char) : Bool := '0' ≤ c && c ≤ '9'

/-- The symbol class of `CharacterVarietyValidator`: the characters of the
regex character set in `library/forms.py` line 34 (the two brace
characters are written by code point). -/
def symbol_chars : List Char :=
  ['!', '@', '#', '$', '%', '^', '&', '*', '(', ')', ',', '.', '?', '\"',
    ':', Char.ofNat 123, Char.ofNat 125, '|', '<', '>']

/-- Membership in the symbol class. -/
def symbol_char (c : Char) : Bool := symbol_chars.contains c

/-- Embeds `CharacterVarietyValidator.__call__` from `library/forms.py`
(lines 17–39): the checks run in the order uppercase, lowercase, digit,
symbol; the first failing check raises its message (`some msg`), and a
password passing all four returns without raising (`none`).  The
character classes are embedded over the ASCII range. -/
def characterVarietyValidator (password : List Char) : Option String :=
  if ¬ password.any uppercase_letter then
    some "Password must contain at least one uppercase letter."
  else if ¬ password.any lowercase_letter then
    some "Password must contain at least one lowercase letter."
  else if ¬ password.any digit_char then
    some "Password must contain at least one digit."
  else if ¬ password.any symbol_char then
    some "Password must contain at least one symbol."
  else none

/-- C9: the validator accepts a password exactly when it contains an
uppercase letter, a lowercase letter, a digit and a symbol from the
validator's symbol set; otherwise it raises the message of the first
missing class in the order uppercase, lowercase, digit, symbol. -/
theorem characterVarietyValidator_spec (password : List Char) :
    (characterVarietyValidator password = none ↔
      (password.any uppercase_letter = true
        ∧ password.any lowercase_letter = true
        ∧ password.any digit_char = true
        ∧ password.any symbol_char = true))
    ∧ (password.any uppercase_letter = false →
        characterVarietyValidator password =
          some "Password must contain at least one uppercase letter.")
    ∧ (password.any uppercase_letter = true →
        password.any lowercase_letter = false →
        characterVarietyValidator password =
          some "Password must contain at least one lowercase letter.")
    ∧ (password.any uppercase_letter = true →
        password.any lowercase_letter = true →
        password.any digit_char = false →
        characterVarietyValidator password =
          some "Password must contain at least one digit.")
    ∧ (password.any uppercase_letter = true →
        password.any lowercase_letter = true →
        password.any digit_char = true →
        password.any symbol_char = false →
        characterVarietyValidator password =
          some "Password must contain at least one symbol.") := by
  unfold characterVarietyValidator
  split_ifs with h1 h2 h3 h4 <;> simp_all

/-- Witness for C9 on the passwords of
`FormTests.test_character_variety_validator`: a fully varied password is
accepted, and the first missing class is reported in order. -/
theorem characterVarietyValidator_spec_witness :
    characterVarietyValidator "Password123!".toList = none
    ∧ characterVarietyValidator "password123!".toList =
        some "Password must contain at least one uppercase letter."
    ∧ characterVarietyValidator "PASSWORD123!".toList =
        some "Password must contain at least one lowercase letter."
    ∧ characterVarietyValidator "PasswordABC!".toList =
        some "Password must contain at least one digit."
    ∧ characterVarietyValidator "Password123".toList =
        some "Password must contain at least one symbol." :=
  ⟨(characterVarietyValidator_spec "Password123!".toList).1.mpr (by decide),
    (characterVarietyValidator_spec "password123!".toList).2.1 (by decide),
    (characterVarietyValidator_spec "PASSWORD123!".toList).2.2.1 (by decide)
      (by decide),
    (characterVarietyValidator_spec "PasswordABC!".toList).2.2.2.1 (by decide)
      (by decide) (by decide),
    (characterVarietyValidator_spec "Password123".toList).2.2.2.2 (by decide)
      (by decide) (by decide) (by decide)⟩

/-- A `Book` row, after the `Book` model in `library/models.py` (lines
54–64): `total_copies` and `available_copies` are `PositiveIntegerField`s,
i.e. nonnegative integers — `Nat` carries the nonnegativity. -/
structure Book where
  title : String
  isbn : String
  total_copies : Nat
  available_copies : Nat
deriving DecidableEq, Repr

/-- The check constraint `available_copies_lte_total_copies` of
`Book.Meta.constraints` (`library/models.py` lines 79–86):
`available_copies__lte=F('total_copies')`. -/
def book_check (b : Book) : Bool := b.available_copies ≤ b.total_copies

/-- A write statement against the books table. -/
inductive BookWrite where
  | insert (b : Book)
  | update (i : Nat) (b : Book)
  | delete (i : Nat)

/-- The database semantics of a check constraint: an insert or update
whose written row violates the constraint is rejected (`none`) and the
table is unchanged; otherwise the write is applied. -/
def apply_book_write (table : List Book) (w : BookWrite) :
    Option (List Book) :=
  match w with
  | BookWrite.insert b =>
      if book_check b then some (table ++ [b]) else none
  | BookWrite.update i b =>
      if book_check b then some (table.set i b) else none
  | BookWrite.delete i => some (table.eraseIdx i)

/-- The book tables reachable from the empty table through accepted
writes. -/
inductive BookTableReachable : List Book → Prop where
  | init : BookTableReachable []
  | step (t t' : List Book) (w : BookWrite) :
      BookTableReachable t → apply_book_write t w = some t' →
      BookTableReachable t'

/-- C10: in every reachable database state each stored book satisfies
available_copies ≤ total_copies (both counts being nonnegative by the
`Nat` carrier of the `PositiveIntegerField`s), and the check constraint
rejects any insert or update whose row would violate it. -/
theorem book_invariant_reachable (table : List Book)
    (h : BookTableReachable table) :
    (∀ b ∈ table, b.available_copies ≤ b.total_copies)
    ∧ ∀ b : Book, b.total_copies < b.available_copies →
        apply_book_write table (BookWrite.insert b) = none
        ∧ ∀ i, apply_book_write table (BookWrite.update i b) = none := by
  constructor
  · induction h with
    | init => simp
    | step t t' w ht happ ih =>
      intro b hb
      cases w with
      | insert nb =>
        simp only [apply_book_write] at happ
        by_cases hc : book_check nb
        · rw [if_pos hc] at happ
          obtain rfl : t ++ [nb] = t' := Option.some.injEq .. ▸ happ
          rcases List.mem_append.mp hb with hmem | hmem
          · exact ih b hmem
          · obtain rfl : b = nb := List.mem_singleton.mp hmem
            exact Nat.le_of_lt_succ (Nat.lt_succ_of_le (by
              unfold book_check at hc
              exact of_decide_eq_true hc))
        · rw [if_neg hc] at happ
          exact absurd happ (Option.some_ne_none _).symm
      | update i nb =>
        simp only [apply_book_write] at happ
        by_cases hc : book_check nb
        · rw [if_pos hc] at happ
          obtain rfl : t.set i nb = t' := Option.some.injEq .. ▸ happ
          rcases List.mem_or_eq_of_mem_set hb with hmem | rfl
          · exact ih b hmem
          · unfold book_check at hc
            exact of_decide_eq_true hc
        · rw [if_neg hc] at happ
          exact absurd happ (Option.some_ne_none _).symm
      | delete i =>
        simp only [apply_book_write] at happ
        obtain rfl : t.eraseIdx i = t' := Option.some.injEq .. ▸ happ
        exact ih b (List.mem_of_mem_eraseIdx hb)
  · intro b hviol
    have hc : book_check b = false := by
      unfold book_check
      simpa [Nat.not_le] using hviol
    refine ⟨?_, fun i => ?_⟩ <;> simp [apply_book_write, hc]

/-- Witness for C10: the table holding one book with 2 total and 1
available copy is reachable, every row in it satisfies the constraint,
and a row with 3 available out of 2 total is rejected. -/
theorem book_invariant_reachable_witness :
    (∀ b ∈ [(⟨"Dune", "isbn-1", 2, 1⟩ : Book)],
      b.available_copies ≤ b.total_copies)
    ∧ apply_book_write [(⟨"Dune", "isbn-1", 2, 1⟩ : Book)]
        (BookWrite.insert ⟨"Dune", "isbn-2", 2, 3⟩) = none :=
  have hreach : BookTableReachable [(⟨"Dune", "isbn-1", 2, 1⟩ : Book)] :=
    BookTableReachable.step [] _ (BookWrite.insert ⟨"Dune", "isbn-1", 2, 1⟩)
      BookTableReachable.init (by decide)
  ⟨(book_invariant_reachable _ hreach).1,
    ((book_invariant_reachable _ hreach).2 ⟨"Dune", "isbn-2", 2, 3⟩
      (by decide)).1⟩

end SilentLibrary
